import Mathlib

/-!
Verification of the LocalStack orchestration scripts
(`setup-localstack.py`, `teardown-localstack.py`, `verify-localstack.py`,
`deploy-lambda-localstack.py`, `deploy-lambda-localstack-zip.py`)
against their natural-language specification.

The scripts are linear sequences of external-tool invocations.  We embed
them shallowly: the outcome of each external process, HTTP request or
interactive prompt is an input ("oracle") to the Lean function, and the
function computes the control flow of the Python source — which calls are
issued, which messages are printed, and how the process exits.
-/

/-- Result of `subprocess.run(cmd, check=check, capture_output=..., text=True)`.
`returncode` is the process exit code; `stdout`/`stderr` are the captured
streams (empty when not captured). -/
structure CompletedProcess where
  returncode : Int
  stdout : String
  stderr : String
deriving Repr, DecidableEq

/-- How a call to one of the scripts' `run_command` wrappers ends:
the Python function returns a result, returns `None`, or the whole
process terminates via `sys.exit(code)`. -/
inductive RunResult where
  /-- The wrapper returned the `CompletedProcess`. -/
  | ok (r : CompletedProcess)
  /-- The wrapper returned `None` (teardown variant only). -/
  | nothing
  /-- the process terminated via `sys.exit(code)`. -/
  | exited (code : Nat)
deriving Repr, DecidableEq

/-- Model of `run_command` as defined identically in `setup-localstack.py`,
`deploy-lambda-localstack.py` and `deploy-lambda-localstack-zip.py`.
The oracle `proc` is the result of `subprocess.run`: `none` models
`FileNotFoundError` (the executable cannot be located), and `some r` a
completed process.  With `check = true`, a non-zero exit raises
`CalledProcessError`, which the wrapper turns into `sys.exit(1)`;
`FileNotFoundError` also becomes `sys.exit(1)`. -/
def run_command (proc : Option CompletedProcess) (check : Bool) : RunResult :=
  match proc with
  | none => .exited 1
  | some r => if check && r.returncode != 0 then .exited 1 else .ok r

/-- Model of `run_command` as defined in `teardown-localstack.py`: unlike the other
scripts, a `CalledProcessError` (non-zero exit with `check = true`) is
caught, a warning is printed and `None` is returned — the process keeps
running.  Only `FileNotFoundError` is fatal. -/
def run_command_teardown (proc : Option CompletedProcess) (check : Bool) : RunResult :=
  match proc with
  | none => .exited 1
  | some r => if check && r.returncode != 0 then .nothing else .ok r

/-- Does the character list `hay` start with `needle`? -/
def leadsWith : List Char → List Char → Bool
  | _, [] => true
  | [], _ :: _ => false
  | c :: cs, d :: ds => c == d && leadsWith cs ds

/-- Does `needle` occur contiguously inside `hay`
(Python's `needle in hay` on strings)? -/
def hasSub (hay needle : List Char) : Bool :=
  leadsWith hay needle ||
    match hay with
    | [] => false
    | _ :: t => hasSub t needle

/-- Python's `needle in hay` substring test on strings. -/
def containsStr (hay needle : String) : Bool :=
  hasSub hay.data needle.data

/-- Python's `str.lower()` (the scripts only ever compare ASCII text). -/
def strLower (s : String) : String :=
  String.mk (s.data.map Char.toLower)

/-- How a script function finishes: it returns normally, or the whole
process terminates via `sys.exit(code)`. -/
inductive ExecResult where
  | returned
  | exitedWith (code : Nat)
deriving Repr, DecidableEq

/-- The conflict test of `deploy_lambda` / `create_or_update_lambda`:
`"ResourceConflictException" in result.stderr or "already exists" in
result.stderr.lower()`. -/
def isConflictError (stderr : String) : Bool :=
  containsStr stderr "ResourceConflictException" ||
    containsStr (strLower stderr) "already exists"

/-- Observable behaviour of one deployment-upsert invocation:
how it exits, the `require_success` flag of each `update-function-code`
call it issues, and the error messages it prints. -/
structure UpsertOutcome where
  result : ExecResult
  updateCalls : List Bool
  errorsPrinted : List String
deriving Repr, DecidableEq

/-- Model of `deploy_lambda` from `deploy-lambda-localstack-zip.py` (lines 120–161).
`createProc` / `updateProc` are the oracle results of the
`aws lambda create-function` / `aws lambda update-function-code`
subprocesses.  The create call runs with `check=False` and captured
output; on exit 0 the function returns; otherwise, if the stderr matches
the conflict signature, the update call runs with `check=True` (the
default); otherwise the stderr is printed and the process exits 1. -/
def deploy_lambda (createProc updateProc : Option CompletedProcess) : UpsertOutcome :=
  match run_command createProc false with
  | .exited c => ⟨.exitedWith c, [], []⟩
  | .nothing => ⟨.returned, [], []⟩
  | .ok result =>
    if result.returncode == 0 then
      ⟨.returned, [], []⟩
    else if isConflictError result.stderr then
      match run_command updateProc true with
      | .exited c => ⟨.exitedWith c, [true], []⟩
      | .nothing => ⟨.returned, [true], []⟩
      | .ok _ => ⟨.returned, [true], []⟩
    else
      ⟨.exitedWith 1, [], ["❌ Failed to create Lambda function: " ++ result.stderr]⟩

/-- Model of `create_or_update_lambda` from `deploy-lambda-localstack.py`
(lines 122–160): identical control flow to `deploy_lambda`, with the
update call passing `--image-uri` instead of `--zip-file`. -/
def create_or_update_lambda (createProc updateProc : Option CompletedProcess) : UpsertOutcome :=
  match run_command createProc false with
  | .exited c => ⟨.exitedWith c, [], []⟩
  | .nothing => ⟨.returned, [], []⟩
  | .ok result =>
    if result.returncode == 0 then
      ⟨.returned, [], []⟩
    else if isConflictError result.stderr then
      match run_command updateProc true with
      | .exited c => ⟨.exitedWith c, [true], []⟩
      | .nothing => ⟨.returned, [true], []⟩
      | .ok _ => ⟨.returned, [true], []⟩
    else
      ⟨.exitedWith 1, [], ["❌ Failed to create Lambda function: " ++ result.stderr]⟩

/-- Model of `TIMEOUT = 60` from `setup-localstack.py`. -/
def TIMEOUT : Nat := 60

/-- Outcome of one `urllib.request.urlopen(HEALTH_CHECK_URL, timeout=2)`
attempt: a response with some HTTP status, or a network error
(`URLError`, `OSError`, `TimeoutError`). -/
inductive HealthOutcome where
  | resp (status : Nat)
  | netError
deriving Repr, DecidableEq

/-- The success test of the health check: no exception was raised and
`response.status == 200`.  A non-200 response and a network error both
fall through to the retry path. -/
def isReady : HealthOutcome → Bool
  | .resp s => s == 200
  | .netError => false

/-- Result of the readiness poll: `ready n` — the check returned true on
the `n`-th attempt (so exactly `n` checks were made); `fatal n code msg` —
`n` attempts were made, none succeeded, and the process exited via
`sys.exit(code)` after printing `msg`. -/
inductive PollResult where
  | ready (attempts : Nat)
  | fatal (attempts : Nat) (code : Nat) (msg : String)
deriving Repr, DecidableEq

/-- The `while counter < TIMEOUT` loop of `wait_for_localstack`
(`setup-localstack.py` lines 82–97).  `checks i` is the outcome of the
`i`-th health request; each iteration sleeps 2 seconds and adds 2 to
`counter`.  `idx` counts the attempts already made. -/
def wait_loop (checks : Nat → HealthOutcome) (counter idx : Nat) : PollResult :=
  if h : counter < TIMEOUT then
    if isReady (checks idx) then .ready (idx + 1)
    else wait_loop checks (counter + 2) (idx + 1)
  else
    .fatal idx 1 ("❌ LocalStack failed to start within " ++ toString TIMEOUT ++ " seconds")
termination_by TIMEOUT - counter
decreasing_by simp only [TIMEOUT] at *; omega

/-- Model of `wait_for_localstack` from `setup-localstack.py` (lines 78–97). -/
def wait_for_localstack (checks : Nat → HealthOutcome) : PollResult :=
  wait_loop checks 0 0

/-- One filesystem entry under the publish directory, as enumerated by
`publish_dir.rglob('*')` in `build_and_package`: its path (components),
relative to the publish directory (what `file.relative_to(publish_dir)`
yields), and whether it is a regular file (`file.is_file()`; `false`
means a directory). -/
structure PubEntry where
  rel : List String
  regular : Bool
deriving Repr, DecidableEq

/-- The ZIP-writing loop of `build_and_package` (lines 106–111): the
archive receives every regular file, under its publish-relative path, in
enumeration order; directories are skipped. -/
def packageEntries (publish : List PubEntry) : List (List String) :=
  (publish.filter fun e => e.regular).map fun e => e.rel

/-- The filesystem/process state the build scripts touch: the current
working directory, whether the stale `bin` / `obj` build outputs exist,
and the contents of `lambda.zip` (`none` = no archive on disk). -/
structure FsState where
  cwd : String
  binExists : Bool
  objExists : Bool
  zipContents : Option (List (List String))
deriving Repr, DecidableEq

/-- Model of `LAMBDA_DIR` from the deploy scripts. -/
def LAMBDA_DIR : String := "src/dotnet/SimpleLambda"

/-- The project root directory that `start_localstack` changes into. -/
def PROJECT_ROOT : String := "project-root"

/-- Model of `build_and_package` from `deploy-lambda-localstack-zip.py`
(lines 78–117).  `dirExists` — does `LAMBDA_DIR` exist; `publishRes` —
what `dotnet publish` left in the publish directory (`none` models the
publish subprocess failing, which `run_command` turns into `sys.exit(1)`,
raised through the `finally` block).  The body: `chdir(LAMBDA_DIR)`,
remove `bin`/`obj` if present, publish, unlink a pre-existing
`lambda.zip`, write the archive; the `finally` restores the original
working directory on every path. -/
def build_and_package (dirExists : Bool) (publishRes : Option (List PubEntry))
    (s : FsState) : ExecResult × FsState :=
  if !dirExists then (.exitedWith 1, s)
  else
    let original := s.cwd
    let s1 := { s with cwd := LAMBDA_DIR }
    let s2 := if s1.binExists then { s1 with binExists := false } else s1
    let s3 := if s2.objExists then { s2 with objExists := false } else s2
    match publishRes with
    | none => (.exitedWith 1, { s3 with cwd := original })
    | some pub =>
      let s4 := if s3.zipContents.isSome then { s3 with zipContents := none } else s3
      let s5 := { s4 with zipContents := some (packageEntries pub) }
      (.returned, { s5 with cwd := original })

/-- Model of `start_localstack` from `setup-localstack.py` (lines 56–75):
check for `docker-compose.yml`, `chdir` to the project root, run
`docker-compose up -d localstack` (required success), restore the
working directory in the `finally` block. -/
def start_localstack (composeFileExists : Bool) (upProc : Option CompletedProcess)
    (s : FsState) : ExecResult × FsState :=
  if !composeFileExists then (.exitedWith 1, s)
  else
    let original := s.cwd
    let s1 := { s with cwd := PROJECT_ROOT }
    match run_command upProc true with
    | .exited c => (.exitedWith c, { s1 with cwd := original })
    | .nothing => (.returned, { s1 with cwd := original })
    | .ok _ => (.returned, { s1 with cwd := original })

/-- ASCII whitespace, for Python's `str.strip()` (the scripts only strip
command output, which is ASCII). -/
def isSpaceChar (c : Char) : Bool :=
  c == ' ' || c == '\n' || c == '\t' || c == '\r'

/-- Python's `str.strip()`: drop leading and trailing whitespace. -/
def pyStrip (s : String) : String :=
  String.mk (((s.data.dropWhile isSpaceChar).reverse.dropWhile isSpaceChar).reverse)

/-- Split a character list at newline characters. -/
def splitOnNl : List Char → List (List Char)
  | [] => [[]]
  | c :: cs =>
    let rest := splitOnNl cs
    if c == '\n' then [] :: rest
    else
      match rest with
      | [] => [[c]]
      | h :: t => (c :: h) :: t

/-- Python's `str.split('\n')`. -/
def pySplitLines (s : String) : List String :=
  (splitOnNl s.data).map String.mk

/-- Observable behaviour of a prerequisite check: how it exits and the
timeout (in seconds) of each HTTP health GET it issues. -/
structure PrereqTrace where
  result : ExecResult
  httpGets : List Nat
deriving Repr, DecidableEq

/-- Model of `check_prerequisites` from `deploy-lambda-localstack-zip.py`
(lines 45–75): verify `dotnet --version` and `aws --version` via
`run_command` (any `SystemExit` is caught and re-raised as `sys.exit(1)`),
then perform ONE `urllib.request.urlopen(health, timeout=2)`; a 200
response passes, any exception or other status falls through to
`sys.exit(1)`.  `health i` is the outcome the `i`-th GET would have;
only `health 0` is ever consulted. -/
def check_prerequisites_zip (dotnetProc awsProc : Option CompletedProcess)
    (health : Nat → HealthOutcome) : PrereqTrace :=
  match run_command dotnetProc true with
  | .exited c => ⟨.exitedWith c, []⟩
  | .nothing => ⟨.exitedWith 1, []⟩
  | .ok _ =>
    match run_command awsProc true with
    | .exited c => ⟨.exitedWith c, []⟩
    | .nothing => ⟨.exitedWith 1, []⟩
    | .ok _ =>
      if isReady (health 0) then ⟨.returned, [2]⟩
      else ⟨.exitedWith 1, [2]⟩

/-- Model of `check_prerequisites` from `deploy-lambda-localstack.py`
(lines 48–83): verify `docker --version` and `aws --version`, then check
LocalStack with a single `docker ps --filter name=localstack` query
(`check=False`, captured): empty stripped stdout is fatal.  No HTTP
request is made at all. -/
def check_prerequisites_img (dockerProc awsProc psProc : Option CompletedProcess) :
    PrereqTrace :=
  match run_command dockerProc true with
  | .exited c => ⟨.exitedWith c, []⟩
  | .nothing => ⟨.exitedWith 1, []⟩
  | .ok _ =>
    match run_command awsProc true with
    | .exited c => ⟨.exitedWith c, []⟩
    | .nothing => ⟨.exitedWith 1, []⟩
    | .ok _ =>
      match run_command psProc false with
      | .exited c => ⟨.exitedWith c, []⟩
      | .nothing => ⟨.exitedWith 1, []⟩
      | .ok r =>
        if pyStrip r.stdout != "" then ⟨.returned, []⟩
        else ⟨.exitedWith 1, []⟩

/-- The interactive prompts of `teardown-localstack.py`, verbatim. -/
def continuePrompt : String := "Continue with cleanup anyway? (y/N): "

/-- Prompt of `remove_volumes`. -/
def dataPrompt : String := "   Remove LocalStack data? This will delete all persisted state. (y/N): "

/-- Prompt of `cleanup_containers`. -/
def containersPrompt : String := "   Remove orphaned LocalStack containers? (y/N): "

/-- Prompt inside `cleanup_images`. -/
def imagesPrompt : String := "   Remove LocalStack Docker images? (y/N): "

/-- Prompt in `main` guarding the call to `cleanup_images`. -/
def mainImagesPrompt : String := "Remove LocalStack Docker images? Usually not needed. (y/N): "

/-- Externally visible steps of a teardown run: the environment-stop
command, a prompt shown to the operator, and the destructive actions —
recursive deletion of the data directory, `docker rm -f` of a container,
`docker rmi` of an image. -/
inductive TdStep where
  | composeDown
  | prompt (text : String)
  | removeData
  | dockerRm (name : String)
  | dockerRmi (imageId : String)
deriving Repr, DecidableEq

/-- Is a teardown step destructive (deletes data, a container or an
image)? -/
def isDestructive : TdStep → Bool
  | .removeData => true
  | .dockerRm _ => true
  | .dockerRmi _ => true
  | _ => false

/-- Model of `stop_localstack` (`teardown-localstack.py` lines 39–64): if
`docker-compose.yml` is missing, return `False`; otherwise run
`docker-compose down` with `check=False` and return whether it succeeded
(a `None` result or non-zero exit counts as "may not have been
running").  `Except.error c` models the whole process dying via
`sys.exit(c)` (docker-compose not locatable). -/
def stop_localstack (composeFileExists : Bool) (downProc : Option CompletedProcess) :
    Except Nat (Bool × List TdStep) :=
  if !composeFileExists then .ok (false, [])
  else
    match run_command_teardown downProc false with
    | .exited c => .error c
    | .nothing => .ok (false, [.composeDown])
    | .ok r =>
      if r.returncode == 0 then .ok (true, [.composeDown])
      else .ok (false, [.composeDown])

/-- Model of `remove_volumes` (lines 67–88): if the data directory exists, prompt;
on an answer whose lowercase form is exactly `"y"`, attempt
`shutil.rmtree` (failure there is caught and non-fatal); any other
answer skips.  `inputs i` is the operator's `i`-th answer of the whole
run; returns the effect trace and the next unread input index. -/
def remove_volumes (dataDirExists : Bool) (inputs : Nat → String) (i : Nat) :
    List TdStep × Nat :=
  if dataDirExists then
    if strLower (inputs i) == "y" then ([.prompt dataPrompt, .removeData], i + 1)
    else ([.prompt dataPrompt], i + 1)
  else ([], i)

/-- Model of `cleanup_containers` (lines 91–113): list LocalStack containers with
`docker ps -a` (`check=False`, captured); if the stripped stdout is
non-empty, prompt, and on a lowercase-`"y"` answer force-remove each
listed container (each `docker rm -f` runs with `check=False`, so
per-item failures do not abort the loop). -/
def cleanup_containers (psProc : Option CompletedProcess) (inputs : Nat → String)
    (i : Nat) : Except Nat (List TdStep × Nat) :=
  match run_command_teardown psProc false with
  | .exited c => .error c
  | .nothing => .ok ([], i)
  | .ok r =>
    if pyStrip r.stdout != "" then
      if strLower (inputs i) == "y" then
        .ok (.prompt containersPrompt ::
          (pySplitLines (pyStrip r.stdout)).map TdStep.dockerRm, i + 1)
      else .ok ([.prompt containersPrompt], i + 1)
    else .ok ([], i)

/-- Model of `cleanup_images` (lines 116–137): list LocalStack image IDs; if the
stripped stdout is non-empty, prompt, and on a lowercase-`"y"` answer
remove each distinct ID (Python builds a `set` of the IDs; each
`docker rmi` runs with `check=False`). -/
def cleanup_images (imgProc : Option CompletedProcess) (inputs : Nat → String)
    (i : Nat) : Except Nat (List TdStep × Nat) :=
  match run_command_teardown imgProc false with
  | .exited c => .error c
  | .nothing => .ok ([], i)
  | .ok r =>
    if pyStrip r.stdout != "" then
      if strLower (inputs i) == "y" then
        .ok (.prompt imagesPrompt ::
          ((pySplitLines (pyStrip r.stdout)).dedup).map TdStep.dockerRmi, i + 1)
      else .ok ([.prompt imagesPrompt], i + 1)
    else .ok ([], i)

/-- The environment a teardown run observes: whether
`docker-compose.yml` and the data directory exist, the results of the
`docker-compose down` / `docker ps -a` / `docker images` subprocesses,
and the operator's successive answers. -/
structure TdWorld where
  composeFileExists : Bool
  downProc : Option CompletedProcess
  dataDirExists : Bool
  psProc : Option CompletedProcess
  imgProc : Option CompletedProcess
  inputs : Nat → String

/-- The tail of `main` (lines 155–169) after the stop step: data
removal, container cleanup, then the images question — `cleanup_images`
runs only if the `main` prompt is answered with lowercase `"y"`, and
asks again itself.  `t0` is the trace so far and `i0` the next input
index. -/
def teardown_rest (w : TdWorld) (t0 : List TdStep) (i0 : Nat) :
    ExecResult × List TdStep :=
  let (t1, i1) := remove_volumes w.dataDirExists w.inputs i0
  match cleanup_containers w.psProc w.inputs i1 with
  | .error c => (.exitedWith c, t0 ++ t1)
  | .ok (t2, i2) =>
    if strLower (w.inputs i2) == "y" then
      match cleanup_images w.imgProc w.inputs (i2 + 1) with
      | .error c => (.exitedWith c, t0 ++ t1 ++ t2 ++ [.prompt mainImagesPrompt])
      | .ok (t3, _) =>
        (.returned, t0 ++ t1 ++ t2 ++ [.prompt mainImagesPrompt] ++ t3)
    else (.returned, t0 ++ t1 ++ t2 ++ [.prompt mainImagesPrompt])

/-- Model of `main` of `teardown-localstack.py` (lines 140–169): stop LocalStack;
if that did not succeed, ask whether to continue — any answer other than
lowercase `"y"` aborts via `sys.exit(0)`; then run the cleanup steps. -/
def teardown_main (w : TdWorld) : ExecResult × List TdStep :=
  match stop_localstack w.composeFileExists w.downProc with
  | .error c => (.exitedWith c, [])
  | .ok (stopped, t0) =>
    if stopped then teardown_rest w t0 0
    else if strLower (w.inputs 0) != "y" then
      (.exitedWith 0, t0 ++ [.prompt continuePrompt])
    else teardown_rest w (t0 ++ [.prompt continuePrompt]) 1

/-- The health document `check_port_accessibility` reads: version,
edition, and per-service status strings. -/
structure HealthDoc where
  version : Option String
  edition : Option String
  services : List (String × String)
deriving Repr, DecidableEq

/-- Outcome of the verify script's health GET: a network error
(`URLError` or any other exception), or a response with an HTTP status
and a body.  `body = none` models a 200 body that `json.loads` cannot
parse as a JSON object — inside the `try`, this raises and is caught by
the generic `except Exception` handler. -/
inductive HealthResp where
  | netError
  | resp (status : Nat) (body : Option HealthDoc)
deriving Repr, DecidableEq

/-- Model of `check_port_accessibility` from `verify-localstack.py` (lines
21–51): `True` iff the GET succeeded with status 200 and the body parsed
(the parse happens inside the status-200 branch; its failure is caught
and yields `False`); a non-200 status or any exception yields `False`. -/
def check_port_accessibility (h : HealthResp) : Bool :=
  match h with
  | .netError => false
  | .resp status body =>
    if status == 200 then
      match body with
      | some _ => true
      | none => false
    else false

/-- Model of `check_container_status` from `verify-localstack.py` (lines 54–89):
`none` models the `None` returns (docker missing → `FileNotFoundError`,
or non-zero exit → `CalledProcessError`, both caught); otherwise `True`
iff `docker ps` printed any container line. -/
def check_container_status (proc : Option CompletedProcess) : Option Bool :=
  match proc with
  | none => none
  | some r =>
    if r.returncode != 0 then none
    else if pyStrip r.stdout != "" then some true
    else some false

/-- Model of `test_basic_operations` from `verify-localstack.py` (lines 92–126):
the S3 and Lambda probes run with no `check=True` and every exception
caught, so the function only produces console lines (`none` here models
any exception — timeout, missing binary).  It cannot exit. -/
def test_basic_operations (s3Proc lambdaProc : Option CompletedProcess) : List String :=
  (match s3Proc with
   | none => ["   ⚠️  S3 test failed"]
   | some r =>
     if r.returncode == 0 then ["   ✅ S3 service is working"]
     else ["   ⚠️  S3 test returned: " ++ toString r.returncode]) ++
  (match lambdaProc with
   | none => ["   ⚠️  Lambda test failed"]
   | some r =>
     if r.returncode == 0 then ["   ✅ Lambda service is working"]
     else ["   ⚠️  Lambda test returned: " ++ toString r.returncode])

/-- Model of `main` of `verify-localstack.py` (lines 129–159): run the container
check, then the port check; if the port check passed, run the operation
tests and fall off the end (exit 0); otherwise print a tip (chosen by
the container result) and `sys.exit(1)`. -/
def verify_main (psProc : Option CompletedProcess) (health : HealthResp)
    (s3Proc lambdaProc : Option CompletedProcess) : ExecResult :=
  let _container := check_container_status psProc
  let portAccessible := check_port_accessibility health
  if portAccessible then
    let _tests := test_basic_operations s3Proc lambdaProc
    .returned
  else .exitedWith 1

example : deploy_lambda (some ⟨0, "", ""⟩) none = ⟨.returned, [], []⟩ := by decide

example : deploy_lambda (some ⟨254, "", "An error occurred (ResourceConflictException)"⟩)
    (some ⟨0, "", ""⟩) = ⟨.returned, [true], []⟩ := by decide

example : deploy_lambda (some ⟨254, "", "Function Already Exists"⟩)
    (some ⟨1, "", ""⟩) = ⟨.exitedWith 1, [true], []⟩ := by decide

example : deploy_lambda (some ⟨254, "", "AccessDenied"⟩) (some ⟨0, "", ""⟩)
    = ⟨.exitedWith 1, [], ["❌ Failed to create Lambda function: AccessDenied"]⟩ := by decide

/-- C1: for every deployment-upsert invocation, if the create call exits 0
the run returns having issued no update call; if the captured stderr
matches the conflict signature (`ResourceConflictException` or, case-
insensitively, `already exists`), exactly one update call is issued with
`require_success = true`; otherwise the run exits fatally with code 1,
printing the raw stderr, and no update call is issued.  Holds for both
`deploy_lambda` (ZIP variant) and `create_or_update_lambda` (image
variant). -/
theorem upsert_conflict_protocol (r : CompletedProcess) (u : Option CompletedProcess) :
    (r.returncode = 0 →
      deploy_lambda (some r) u = ⟨.returned, [], []⟩ ∧
      create_or_update_lambda (some r) u = ⟨.returned, [], []⟩) ∧
    (r.returncode ≠ 0 → isConflictError r.stderr = true →
      (deploy_lambda (some r) u).updateCalls = [true] ∧
      (create_or_update_lambda (some r) u).updateCalls = [true]) ∧
    (r.returncode ≠ 0 → isConflictError r.stderr = false →
      deploy_lambda (some r) u =
        ⟨.exitedWith 1, [], ["❌ Failed to create Lambda function: " ++ r.stderr]⟩ ∧
      create_or_update_lambda (some r) u =
        ⟨.exitedWith 1, [], ["❌ Failed to create Lambda function: " ++ r.stderr]⟩) := by
  refine ⟨fun h0 => ?_, fun hn hc => ?_, fun hn hc => ?_⟩
  · simp [deploy_lambda, create_or_update_lambda, run_command, h0]
  · simp [deploy_lambda, create_or_update_lambda, run_command, hn, hc]
    split <;> rfl
  · simp only [deploy_lambda, create_or_update_lambda, run_command]
    simp [hn, hc]

/-- C1 witness: concrete conflict run — create fails with a
`ResourceConflictException`, exactly one required-success update call is
issued. -/
theorem upsert_conflict_protocol_witness :
    (deploy_lambda (some ⟨254, "", "ResourceConflictException: x"⟩)
      (some ⟨0, "", ""⟩)).updateCalls = [true] :=
  ((upsert_conflict_protocol ⟨254, "", "ResourceConflictException: x"⟩
    (some ⟨0, "", ""⟩)).2.1 (by decide) (by decide)).1

/-- C2 counterexample: the teardown script's `run_command`, invoked with a
locatable executable that exits non-zero and `check = true`, does not
terminate the process — it prints a warning and returns `None`.  This
refutes the claim that every CommandRunner raises a fatal condition iff
the process exits non-zero when `require_success = true`. -/
theorem run_command_teardown_nonfatal :
    run_command_teardown (some ⟨1, "", ""⟩) true = .nothing := by decide

/-- C2 amended: the `run_command` shared by the setup and both deploy
scripts raises a fatal exit (code 1) iff the located process exits
non-zero when `require_success = true`, and returns the result (even a
non-zero one) when `require_success = false`; the teardown variant never
terminates on a required-success failure — it returns `None` — though it
too returns the result unchanged when `require_success = false`. -/
theorem run_command_fatality (r : CompletedProcess) :
    (run_command (some r) true = .exited 1 ↔ r.returncode ≠ 0) ∧
    run_command (some r) false = .ok r ∧
    (r.returncode ≠ 0 → run_command_teardown (some r) true = .nothing) ∧
    (r.returncode = 0 → run_command_teardown (some r) true = .ok r) ∧
    run_command_teardown (some r) false = .ok r := by
  by_cases h : r.returncode = 0 <;>
    simp [run_command, run_command_teardown, h]

/-- C2 witness: concrete non-zero required-success run of the teardown
variant returns `None` rather than exiting. -/
theorem run_command_fatality_witness :
    run_command_teardown (some ⟨2, "", "boom"⟩) true = .nothing :=
  (run_command_fatality ⟨2, "", "boom"⟩).2.2.1 (by decide)

/-- If no check ever succeeds, the loop from `counter` performs
`(TIMEOUT - counter + 1) / 2` further attempts and then exits fatally. -/
theorem wait_loop_never_ready (checks : Nat → HealthOutcome)
    (h : ∀ i, isReady (checks i) = false) :
    ∀ fuel counter idx, TIMEOUT - counter = fuel →
      wait_loop checks counter idx =
        .fatal (idx + (fuel + 1) / 2) 1
          ("❌ LocalStack failed to start within " ++ toString TIMEOUT ++ " seconds") := by
  intro fuel
  induction fuel using Nat.strong_induction_on with
  | _ fuel ih =>
    intro counter idx hf
    unfold wait_loop
    by_cases hcl : counter < TIMEOUT
    · rw [dif_pos hcl, h idx]
      simp only [Bool.false_eq_true, if_false]
      have hlt : TIMEOUT - (counter + 2) < fuel := by
        simp only [TIMEOUT] at *; omega
      rw [ih (TIMEOUT - (counter + 2)) hlt (counter + 2) (idx + 1) rfl]
      congr 1
      simp only [TIMEOUT] at *; omega
    · rw [dif_neg hcl]
      congr 1
      simp only [TIMEOUT] at *; omega

/-- C3: if the readiness check never succeeds, `wait_for_localstack`
exits fatally (code 1) with a message naming the 60-second timeout, after
exactly 30 attempts — which equals `floor(TIMEOUT / 2)` for the default
60-second timeout and 2-second interval (and is in particular within a
tolerance of one of it). -/
theorem poller_timeout (checks : Nat → HealthOutcome)
    (h : ∀ i, isReady (checks i) = false) :
    wait_for_localstack checks =
      .fatal 30 1 "❌ LocalStack failed to start within 60 seconds" ∧
    30 = TIMEOUT / 2 ∧
    containsStr "❌ LocalStack failed to start within 60 seconds" (toString TIMEOUT) = true := by
  refine ⟨?_, by decide, by decide⟩
  rw [wait_for_localstack, wait_loop_never_ready checks h 60 0 0 (by decide)]
  decide

/-- C3 witness: with every health request failing with a network error,
the poller makes 30 attempts and exits 1 naming the 60-second timeout. -/
theorem poller_timeout_witness :
    wait_for_localstack (fun _ => .netError) =
      .fatal 30 1 "❌ LocalStack failed to start within 60 seconds" :=
  (poller_timeout (fun _ => .netError) (fun _ => rfl)).1

/-- If the first success is attempt index `k` (zero-based) and the loop
has budget to reach it, the loop returns `ready` after exactly `k + 1`
check invocations. -/
theorem wait_loop_first_ready (checks : Nat → HealthOutcome) :
    ∀ k counter idx, counter + 2 * k < TIMEOUT →
      (∀ j, j < k → isReady (checks (idx + j)) = false) →
      isReady (checks (idx + k)) = true →
      wait_loop checks counter idx = .ready (idx + k + 1) := by
  intro k
  induction k with
  | zero =>
    intro counter idx hlt hbefore hk
    unfold wait_loop
    rw [dif_pos (by omega)]
    simp only [Nat.add_zero] at hk
    rw [hk]
    simp
  | succ k ih =>
    intro counter idx hlt hbefore hk
    unfold wait_loop
    rw [dif_pos (by omega)]
    have h0 : isReady (checks idx) = false := by
      have := hbefore 0 (Nat.succ_pos k)
      simpa using this
    rw [h0]
    simp only [Bool.false_eq_true, if_false]
    rw [show idx + (k + 1) + 1 = idx + 1 + k + 1 from by omega]
    apply ih (counter + 2) (idx + 1) (by omega)
    · intro j hj
      have := hbefore (j + 1) (by omega)
      rw [show idx + (j + 1) = idx + 1 + j from by omega] at this
      exact this
    · rw [show idx + 1 + k = idx + (k + 1) from by omega]
      exact hk

/-- C4: if the readiness check first succeeds on (zero-based) attempt `k`
(every earlier attempt — network error or non-200 response — counting as
not ready), the poller returns `Ready` having made exactly `k + 1` check
invocations, i.e. it never checks again after the first success; and a
network error is treated as "not yet ready" rather than aborting the
loop. -/
theorem poller_first_success (checks : Nat → HealthOutcome) (k : Nat)
    (hk : k < 30)
    (hbefore : ∀ j, j < k → isReady (checks j) = false)
    (hsucc : isReady (checks k) = true) :
    wait_for_localstack checks = .ready (k + 1) ∧
    isReady .netError = false := by
  refine ⟨?_, rfl⟩
  have hmain := wait_loop_first_ready checks k 0 0
    (by simp only [TIMEOUT]; omega)
    (fun j hj => by simpa using hbefore j hj)
    (by simpa using hsucc)
  rw [wait_for_localstack, hmain]
  simp

/-- C4 witness: a network error on the first attempt, success on the
second — the poller returns after exactly 2 attempts. -/
theorem poller_first_success_witness :
    wait_for_localstack (fun i => if i == 0 then .netError else .resp 200) = .ready 2 :=
  (poller_first_success (fun i => if i == 0 then .netError else .resp 200) 1
    (by omega)
    (fun j hj => by
      have : j = 0 := by omega
      subst this
      rfl)
    rfl).1

/-- Normal form of a successful build: it returns, the stale outputs are
gone, and the archive holds exactly the packaged entries — whatever the
initial state (in particular whatever archive previously existed). -/
theorem build_and_package_eq (pub : List PubEntry) (s : FsState) :
    build_and_package true (some pub) s =
      (.returned, ⟨s.cwd, false, false, some (packageEntries pub)⟩) := by
  unfold build_and_package
  by_cases h1 : s.binExists <;> by_cases h2 : s.objExists <;>
    by_cases h3 : s.zipContents.isSome <;> simp [h1, h2, h3]

/-- C5: a successful build returns having written an archive whose
entries are exactly the regular files under the publish directory, under
their publish-relative paths; no directory entry is written (given the
real-filesystem fact that relative paths are distinct); the archive is
written regardless of what archive existed before (replacement); and
running the build again on the resulting state succeeds with the same
outcome — leftover `bin`/`obj`/`lambda.zip` from the first run cannot
make the second fail, since they are cleared first. -/
theorem build_package_contents (pub : List PubEntry) (s : FsState) :
    (build_and_package true (some pub) s).1 = .returned ∧
    (build_and_package true (some pub) s).2.zipContents = some (packageEntries pub) ∧
    (∀ x, x ∈ packageEntries pub ↔ ∃ e, e ∈ pub ∧ e.regular = true ∧ e.rel = x) ∧
    ((pub.map PubEntry.rel).Nodup →
      ∀ e, e ∈ pub → e.regular = false → ¬ e.rel ∈ packageEntries pub) ∧
    build_and_package true (some pub) (build_and_package true (some pub) s).2 =
      build_and_package true (some pub) s := by
  simp only [build_and_package_eq]
  refine ⟨trivial, trivial, fun x => ?_, fun hnd e he hreg hmem => ?_, trivial⟩
  · simp only [packageEntries, List.mem_map, List.mem_filter]
    constructor
    · rintro ⟨a, ⟨ha, hr⟩, hx⟩
      exact ⟨a, ha, by simpa using hr, hx⟩
    · rintro ⟨a, ha, hr, hx⟩
      exact ⟨a, ⟨ha, by simpa using hr⟩, hx⟩
  · simp only [packageEntries, List.mem_map, List.mem_filter] at hmem
    obtain ⟨a, ⟨ha, hr⟩, hx⟩ := hmem
    have hae : a = e := List.inj_on_of_nodup_map hnd ha he hx
    rw [hae] at hr
    simp [hreg] at hr

/-- C5 witness: a publish tree with two files and one directory — the
directory's path is absent from the archive. -/
theorem build_package_contents_witness :
    ¬ ["sub"] ∈ packageEntries
      [⟨["f.dll"], true⟩, ⟨["sub"], false⟩, ⟨["sub", "g.txt"], true⟩] :=
  (build_package_contents
      [⟨["f.dll"], true⟩, ⟨["sub"], false⟩, ⟨["sub", "g.txt"], true⟩]
      ⟨"home", true, true, none⟩).2.2.2.1
    (by decide) ⟨["sub"], false⟩ (by decide) rfl

/-- C8: `build_and_package` and `start_localstack` restore the working
directory on every exit path — success, failure of a build sub-step
(which raises `SystemExit` through the `finally` block), or the early
missing-directory return (which happens before the directory change). -/
theorem cwd_restored (dirExists composeFileExists : Bool)
    (publishRes : Option (List PubEntry)) (upProc : Option CompletedProcess)
    (s t : FsState) :
    (build_and_package dirExists publishRes s).2.cwd = s.cwd ∧
    (start_localstack composeFileExists upProc t).2.cwd = t.cwd := by
  constructor
  · cases dirExists
    · rfl
    · cases publishRes <;> rfl
  · cases composeFileExists
    · rfl
    · cases hru : run_command upProc true <;> simp [start_localstack, hru]

example : pySplitLines "a\nb" = ["a", "b"] := by decide

example : pyStrip " x\n" = "x" := by decide

/-- C6 counterexample: the image-variant prerequisite check passes —
emulator declared reachable — without issuing a single HTTP GET (it
consults `docker ps` instead), refuting the claim that the prerequisite
check verifies reachability by an HTTP GET against the health path. -/
theorem check_prerequisites_img_no_http :
    check_prerequisites_img (some ⟨0, "Docker version 24", ""⟩)
      (some ⟨0, "aws-cli/2", ""⟩) (some ⟨0, "localstack-main\n", ""⟩) =
      ⟨.returned, []⟩ := by decide

/-- C6 amended: the ZIP-variant prerequisite check is a single HTTP GET
with a 2-second timeout — pass iff status 200, any network error or other
status exiting fatally at once, with exactly one GET either way; the
image-variant check is instead a single `docker ps` query — pass iff its
stripped stdout is non-empty — and issues no HTTP GET. -/
theorem prerequisite_single_attempt (d a ps : CompletedProcess)
    (health : Nat → HealthOutcome)
    (hd : d.returncode = 0) (ha : a.returncode = 0) :
    check_prerequisites_zip (some d) (some a) health =
      (if isReady (health 0) then ⟨.returned, [2]⟩ else ⟨.exitedWith 1, [2]⟩) ∧
    check_prerequisites_img (some d) (some a) (some ps) =
      (if pyStrip ps.stdout != "" then ⟨.returned, []⟩ else ⟨.exitedWith 1, []⟩) := by
  constructor <;>
    simp [check_prerequisites_zip, check_prerequisites_img, run_command, hd, ha]

/-- C6 witness: with working tools and a healthy endpoint, the ZIP-variant
check passes with exactly one 2-second GET. -/
theorem prerequisite_single_attempt_witness :
    check_prerequisites_zip (some ⟨0, "8.0.100", ""⟩) (some ⟨0, "aws-cli/2", ""⟩)
      (fun _ => .resp 200) = ⟨.returned, [2]⟩ :=
  (prerequisite_single_attempt ⟨0, "8.0.100", ""⟩ ⟨0, "aws-cli/2", ""⟩
    ⟨0, "", ""⟩ (fun _ => .resp 200) rfl rfl).1

/-- Every step the stop phase records is the `docker-compose down`
invocation itself. -/
theorem stop_localstack_steps (c : Bool) (d : Option CompletedProcess)
    (b : Bool) (t : List TdStep) (h : stop_localstack c d = .ok (b, t)) :
    ∀ st ∈ t, st = TdStep.composeDown := by
  cases c
  · simp only [stop_localstack, Bool.not_false, if_true] at h
    obtain ⟨-, ht⟩ := by simpa using h
    subst ht
    simp
  · rcases d with - | r
    · simp [stop_localstack, run_command_teardown] at h
    · by_cases hr : r.returncode = 0 <;>
        · simp only [stop_localstack, run_command_teardown, hr, Bool.not_true, if_false] at h
          obtain ⟨-, ht⟩ := by simpa [hr] using h
          subst ht
          simp

/-- The function `remove_volumes` deletes the data directory only on a lowercase-`y`
answer to its prompt. -/
theorem remove_volumes_gate (dd : Bool) (inputs : Nat → String) (i : Nat)
    (h : TdStep.removeData ∈ (remove_volumes dd inputs i).1) :
    strLower (inputs i) = "y" := by
  cases dd
  · simp [remove_volumes] at h
  · by_cases hy : strLower (inputs i) == "y"
    · exact eq_of_beq hy
    · simp [remove_volumes, hy] at h

/-- Every step `remove_volumes` records is its prompt or the data
removal. -/
theorem remove_volumes_steps (dd : Bool) (inputs : Nat → String) (i : Nat) :
    ∀ st ∈ (remove_volumes dd inputs i).1,
      st = TdStep.prompt dataPrompt ∨ st = TdStep.removeData := by
  intro st hst
  cases dd
  · simp [remove_volumes] at hst
  · by_cases hy : strLower (inputs i) == "y" <;>
      simp [remove_volumes, hy] at hst <;> tauto

/-- The function `cleanup_containers` removes containers only on a lowercase-`y`
answer to its prompt. -/
theorem cleanup_containers_gate (ps : Option CompletedProcess) (inputs : Nat → String)
    (i : Nat) (out : List TdStep × Nat) (h : cleanup_containers ps inputs i = .ok out)
    (nm : String) (hmem : TdStep.dockerRm nm ∈ out.1) :
    strLower (inputs i) = "y" := by
  cases hrt : run_command_teardown ps false with
  | ok r =>
    rw [cleanup_containers, hrt] at h
    by_cases hs : pyStrip r.stdout != ""
    · by_cases hy : strLower (inputs i) == "y"
      · exact eq_of_beq hy
      · simp only [hs, hy, if_true, if_false] at h
        obtain ht := by simpa using h
        rw [← ht] at hmem
        simp at hmem
    · simp only [hs, if_false] at h
      obtain ht := by simpa using h
      rw [← ht] at hmem
      simp at hmem
  | nothing =>
    rw [cleanup_containers, hrt] at h
    obtain ht := by simpa using h
    rw [← ht] at hmem
    simp at hmem
  | exited c =>
    rw [cleanup_containers, hrt] at h
    simp at h

/-- Every step `cleanup_containers` records is its prompt or a container
removal. -/
theorem cleanup_containers_steps (ps : Option CompletedProcess) (inputs : Nat → String)
    (i : Nat) (out : List TdStep × Nat) (h : cleanup_containers ps inputs i = .ok out) :
    ∀ st ∈ out.1, st = TdStep.prompt containersPrompt ∨ ∃ nm, st = TdStep.dockerRm nm := by
  intro st hmem
  cases hrt : run_command_teardown ps false with
  | ok r =>
    rw [cleanup_containers, hrt] at h
    by_cases hs : pyStrip r.stdout != ""
    · by_cases hy : strLower (inputs i) == "y" <;>
        · simp only [hs, hy, if_true, if_false] at h
          obtain ht := by simpa using h
          rw [← ht] at hmem
          simp at hmem
          tauto
    · simp only [hs, if_false] at h
      obtain ht := by simpa using h
      rw [← ht] at hmem
      simp at hmem
  | nothing =>
    rw [cleanup_containers, hrt] at h
    obtain ht := by simpa using h
    rw [← ht] at hmem
    simp at hmem
  | exited c =>
    rw [cleanup_containers, hrt] at h
    simp at h

/-- The function `cleanup_images` removes images only on a lowercase-`y` answer to
its own prompt. -/
theorem cleanup_images_gate (ip : Option CompletedProcess) (inputs : Nat → String)
    (i : Nat) (out : List TdStep × Nat) (h : cleanup_images ip inputs i = .ok out)
    (im : String) (hmem : TdStep.dockerRmi im ∈ out.1) :
    strLower (inputs i) = "y" := by
  cases hrt : run_command_teardown ip false with
  | ok r =>
    rw [cleanup_images, hrt] at h
    by_cases hs : pyStrip r.stdout != ""
    · by_cases hy : strLower (inputs i) == "y"
      · exact eq_of_beq hy
      · simp only [hs, hy, if_true, if_false] at h
        obtain ht := by simpa using h
        rw [← ht] at hmem
        simp at hmem
    · simp only [hs, if_false] at h
      obtain ht := by simpa using h
      rw [← ht] at hmem
      simp at hmem
  | nothing =>
    rw [cleanup_images, hrt] at h
    obtain ht := by simpa using h
    rw [← ht] at hmem
    simp at hmem
  | exited c =>
    rw [cleanup_images, hrt] at h
    simp at h

/-- If the post-stop phase of teardown removes an image, two successive
operator answers lowered to exactly `"y"`: the main images question and
`cleanup_images`' own prompt. -/
theorem teardown_rest_rmi (w : TdWorld) (t0 : List TdStep) (i0 : Nat)
    (ht0 : ∀ st ∈ t0, isDestructive st = false)
    (im : String) (hmem : TdStep.dockerRmi im ∈ (teardown_rest w t0 i0).2) :
    ∃ i, strLower (w.inputs i) = "y" ∧ strLower (w.inputs (i + 1)) = "y" := by
  unfold teardown_rest at hmem
  rcases hrv : remove_volumes w.dataDirExists w.inputs i0 with ⟨t1, i1⟩
  rw [hrv] at hmem
  dsimp only at hmem
  have ht1 : ¬ TdStep.dockerRmi im ∈ t1 := by
    intro hm
    have := remove_volumes_steps w.dataDirExists w.inputs i0 _ (by rw [hrv]; exact hm)
    rcases this with h | h <;> simp at h
  have ht0' : ¬ TdStep.dockerRmi im ∈ t0 := by
    intro hm
    have := ht0 _ hm
    simp [isDestructive] at this
  cases hcc : cleanup_containers w.psProc w.inputs i1 with
  | error c =>
    rw [hcc] at hmem
    simp only [List.mem_append] at hmem
    tauto
  | ok out =>
    rcases out with ⟨t2, i2⟩
    rw [hcc] at hmem
    dsimp only at hmem
    have ht2 : ¬ TdStep.dockerRmi im ∈ t2 := by
      intro hm
      have := cleanup_containers_steps w.psProc w.inputs i1 _ hcc _ hm
      rcases this with h | ⟨nm, h⟩ <;> simp at h
    by_cases hy : strLower (w.inputs i2) == "y"
    · simp only [hy, if_true] at hmem
      cases hci : cleanup_images w.imgProc w.inputs (i2 + 1) with
      | error c =>
        rw [hci] at hmem
        simp only [List.mem_append, List.mem_singleton] at hmem
        rcases hmem with ((hm | hm) | hm) | hm
        · exact absurd hm ht0'
        · exact absurd hm ht1
        · exact absurd hm ht2
        · simp at hm
      | ok out3 =>
        rcases out3 with ⟨t3, i3⟩
        rw [hci] at hmem
        simp only [List.mem_append, List.mem_singleton] at hmem
        rcases hmem with (((hm | hm) | hm) | hm) | hm
        · exact absurd hm ht0'
        · exact absurd hm ht1
        · exact absurd hm ht2
        · simp at hm
        · exact ⟨i2, eq_of_beq hy, cleanup_images_gate w.imgProc w.inputs (i2 + 1) _ hci im hm⟩
    · rw [if_neg hy] at hmem
      simp only [List.mem_append, List.mem_singleton] at hmem
      rcases hmem with ((hm | hm) | hm) | hm
      · exact absurd hm ht0'
      · exact absurd hm ht1
      · exact absurd hm ht2
      · simp at hm

/-- C7: when the stop step reports LocalStack was not running (result
`false`) and the operator's answer to the "continue anyway" prompt is
anything but lowercase `"y"`, teardown exits with status 0 and its trace
contains no destructive action — no data deletion, no container removal,
no image removal. -/
theorem teardown_decline_neutral (w : TdWorld) (t0 : List TdStep)
    (hstop : stop_localstack w.composeFileExists w.downProc = .ok (false, t0))
    (hdecl : strLower (w.inputs 0) ≠ "y") :
    teardown_main w = (.exitedWith 0, t0 ++ [.prompt continuePrompt]) ∧
    ∀ st ∈ (teardown_main w).2, isDestructive st = false := by
  have hmain : teardown_main w = (.exitedWith 0, t0 ++ [.prompt continuePrompt]) := by
    unfold teardown_main
    rw [hstop]
    simp [hdecl]
  refine ⟨hmain, ?_⟩
  rw [hmain]
  intro st hst
  simp only [List.mem_append, List.mem_singleton] at hst
  rcases hst with hst | hst
  · rw [stop_localstack_steps _ _ _ _ hstop st hst]
    rfl
  · subst hst
    rfl

/-- C7 witness: `docker-compose down` exits non-zero, the operator
answers "n" — exit status 0, and the only recorded steps are the stop
attempt and the prompt. -/
theorem teardown_decline_neutral_witness :
    teardown_main ⟨true, some ⟨1, "", ""⟩, true, some ⟨0, "c1\n", ""⟩,
      some ⟨0, "i1\n", ""⟩, fun _ => "n"⟩ =
      (.exitedWith 0, [.composeDown, .prompt continuePrompt]) :=
  (teardown_decline_neutral ⟨true, some ⟨1, "", ""⟩, true, some ⟨0, "c1\n", ""⟩,
      some ⟨0, "i1\n", ""⟩, fun _ => "n"⟩ [.composeDown]
    rfl (by decide)).1

/-- C10: each destructive teardown action happens only when the
operator's answer, lowercased, is exactly `"y"` (any other answer skips
it), and an image removal in a full run requires two successive
affirmative answers — the main-flow images question and the prompt
inside `cleanup_images`. -/
theorem teardown_destructive_gating :
    (∀ dd inputs i, TdStep.removeData ∈ (remove_volumes dd inputs i).1 →
      strLower (inputs i) = "y") ∧
    (∀ ps inputs i out nm, cleanup_containers ps inputs i = .ok out →
      TdStep.dockerRm nm ∈ out.1 → strLower (inputs i) = "y") ∧
    (∀ ip inputs i out im, cleanup_images ip inputs i = .ok out →
      TdStep.dockerRmi im ∈ out.1 → strLower (inputs i) = "y") ∧
    (∀ w im, TdStep.dockerRmi im ∈ (teardown_main w).2 →
      ∃ i, strLower (w.inputs i) = "y" ∧ strLower (w.inputs (i + 1)) = "y") := by
  refine ⟨remove_volumes_gate,
    fun ps inputs i out nm h hm => cleanup_containers_gate ps inputs i out h nm hm,
    fun ip inputs i out im h hm => cleanup_images_gate ip inputs i out h im hm,
    ?_⟩
  intro w im hmem
  unfold teardown_main at hmem
  cases hstop : stop_localstack w.composeFileExists w.downProc with
  | error c =>
    rw [hstop] at hmem
    simp at hmem
  | ok p =>
    rcases p with ⟨stopped, t0⟩
    rw [hstop] at hmem
    dsimp only at hmem
    have ht0 : ∀ st ∈ t0, isDestructive st = false := by
      intro st hst
      rw [stop_localstack_steps _ _ _ _ hstop st hst]
      rfl
    cases stopped
    · by_cases hy0 : strLower (w.inputs 0) != "y"
      · rw [if_neg (by simp), if_pos hy0] at hmem
        simp only [List.mem_append, List.mem_singleton] at hmem
        rcases hmem with hm | hm
        · have := ht0 _ hm
          simp [isDestructive] at this
        · simp at hm
      · rw [if_neg (by simp), if_neg hy0] at hmem
        refine teardown_rest_rmi w _ 1 ?_ im hmem
        intro st hst
        simp only [List.mem_append, List.mem_singleton] at hst
        rcases hst with hst | hst
        · exact ht0 _ hst
        · subst hst
          rfl
    · rw [if_pos rfl] at hmem
      exact teardown_rest_rmi w t0 0 ht0 im hmem

/-- C10 witness: a run in which an image is removed — the operator
answered `"y"` at two successive prompts. -/
theorem teardown_destructive_gating_witness :
    ∃ i, strLower ((fun _ => "y") i) = "y" ∧
      strLower ((fun _ => "y") (i + 1)) = "y" :=
  teardown_destructive_gating.2.2.2
    ⟨true, some ⟨0, "", ""⟩, false, some ⟨0, "", ""⟩, some ⟨0, "abc\n", ""⟩, fun _ => "y"⟩
    "abc" (by decide)

/-- C9 counterexample: the health endpoint answers 200 but with a body
that does not parse as JSON — the script exits 1 even though the
endpoint returned status 200, refuting "exits non-zero iff the health
endpoint does not return status 200 (or is unreachable)". -/
theorem verify_exit_counterexample :
    verify_main (some ⟨0, "localstack-main\n", ""⟩) (.resp 200 none)
      (some ⟨0, "", ""⟩) (some ⟨0, "", ""⟩) = .exitedWith 1 := by decide

/-- C9 amended: the verify script's exit status is determined solely by
the health check: it exits non-zero iff the check fails — the endpoint
is unreachable, answers with a status other than 200, or answers 200
with a body that does not parse as a JSON object; the container-status
check and the S3/Lambda operation tests (which catch every exception and
require no success) never change the exit status. -/
theorem verify_exit_status (ps ps' s3 s3' lam lam' : Option CompletedProcess)
    (health : HealthResp) :
    (verify_main ps health s3 lam = .returned ↔
      check_port_accessibility health = true) ∧
    (verify_main ps health s3 lam = .exitedWith 1 ↔
      check_port_accessibility health = false) ∧
    verify_main ps health s3 lam = verify_main ps' health s3' lam' ∧
    (check_port_accessibility health = true ↔
      ∃ doc, health = .resp 200 (some doc)) := by
  refine ⟨?_, ?_, ?_, ?_⟩
  · by_cases h : check_port_accessibility health <;> simp [verify_main, h]
  · by_cases h : check_port_accessibility health <;> simp [verify_main, h]
  · by_cases h : check_port_accessibility health <;> simp [verify_main, h]
  · cases health with
    | netError => simp [check_port_accessibility]
    | resp status body =>
      rcases body with - | doc
      · simp [check_port_accessibility]
      · by_cases hs : status = 200 <;> simp [check_port_accessibility, hs]
